import Mathlib

/-!
A shallow embedding of the worker-pool implementation in `worker/pool.go`
(package `worker` of the fpGo repository), together with theorems checking
the natural-language specification against it.

The pool itself (`DefaultWorkerPool` and its methods) is translated directly
from `pool.go`.  The job queue (`fpgo.BufferedChannelQueue`), the signal
channel (`fpgo.ChannelQueue`) and the atomic closed flag (`fpgo.AtomBool`)
live in the root package of the repository, outside the sources at hand, so
they are modelled from the specification's description of their boundary
(bounded mailbox with non-blocking offer failing on full/closed, a count,
close; capacity-1 coalescing signal mailbox dropping extra signals).

Go machine integers (`int`) are modelled as `Int`; none of the verified
claims involves values anywhere near the 64-bit overflow boundary, and the
Go source performs no wrap-sensitive arithmetic, so no explicit modular
reduction is applied.  Durations (`time.Duration`) are modelled as integer
millisecond counts, matching the units used in `NewDefaultWorkerPool`.
-/

namespace FpGoWorker

/-- A job (`func()`) handed to the pool.  For the pool's control logic the
only observable distinctions are: the nil function (skipped by the worker),
a function that returns normally, and a function that panics. -/
inductive Job where
  | nilJob
  | runs
  | panics
deriving DecidableEq

/-- Result of offering to the job queue, mirroring the error values the
queue can return (`nil`, queue-full, queue-closed). -/
inductive OfferResult where
  | ok
  | full
  | closed
deriving DecidableEq

/-- Modelled from the spec: the Task Queue (`fpgo.BufferedChannelQueue`,
outside the given sources) is a bounded mailbox of work items with a
non-blocking offer that fails when the queue is full or closed, a count,
and a close operation. -/
structure JobQueue where
  jobs : List Job
  bufferSize : Nat
  closed : Bool
deriving DecidableEq

/-- Modelled from the spec: non-blocking offer; fails with `closed` after
the queue was closed, with `full` when the buffer is at capacity, and
otherwise appends the job (FIFO). -/
def JobQueue.Offer (q : JobQueue) (j : Job) : OfferResult × JobQueue :=
  if q.closed then (OfferResult.closed, q)
  else if q.bufferSize ≤ q.jobs.length then (OfferResult.full, q)
  else (OfferResult.ok, { q with jobs := q.jobs ++ [j] })

/-- Modelled from the spec: current depth of the Task Queue. -/
def JobQueue.Count (q : JobQueue) : Int := q.jobs.length

/-- Modelled from the spec: closing the Task Queue; afterwards offers
fail. -/
def JobQueue.Close (q : JobQueue) : JobQueue := { q with closed := true }

/-- Modelled from the spec: the spawn-signal mailbox
(`fpgo.NewChannelQueue[int](1)`, outside the given sources): a bounded
channel used purely as a coalescing wake-up. -/
structure SignalMailbox where
  signals : List Int
  capacity : Nat
deriving DecidableEq

/-- Modelled from the spec: non-blocking offer to the signal mailbox; a
signal arriving while the mailbox is at capacity is dropped (coalescing:
at most one pending evaluation). -/
def SignalMailbox.Offer (mb : SignalMailbox) (v : Int) : SignalMailbox :=
  if mb.signals.length < mb.capacity then { mb with signals := mb.signals ++ [v] }
  else mb

/-- The `DefaultWorkerPool` struct of `pool.go`.  The `lastAccessTime`
timestamps and the lock are not represented: timestamps are never read by
any control decision, and lock-protected reads/writes are modelled as plain
state accesses of this sequential embedding.  The panic handler is
represented by whether a (non-nil) handler is configured. -/
structure DefaultWorkerPool where
  isClosed : Bool
  jobQueue : JobQueue
  workerCount : Int
  spawnWorkerCh : SignalMailbox
  isJobQueueClosedWhenClose : Bool
  workerBatchSize : Int
  workerSizeStandBy : Int
  workerSizeMaximum : Int
  spawnWorkerDuration : Int
  workerExpiryDuration : Int
  panicHandlerSome : Bool
deriving DecidableEq

/-- `NewDefaultWorkerPool` (pool.go lines 80-98): the caller supplies the
job queue; every other field takes the listed default.  The spawn loop
goroutine is started but blocks on the (empty) signal mailbox, so no worker
exists yet: `workerCount` is the Go zero value 0 and `isClosed` the zero
value false. -/
def NewDefaultWorkerPool (jobQueue : JobQueue) : DefaultWorkerPool :=
  { isClosed := false
    jobQueue := jobQueue
    workerCount := 0
    spawnWorkerCh := { signals := [], capacity := 1 }
    isJobQueueClosedWhenClose := true
    workerBatchSize := 5
    workerSizeStandBy := 5
    workerSizeMaximum := 1000
    spawnWorkerDuration := 100
    workerExpiryDuration := 5000
    panicHandlerSome := true }

/-- The target-size computation of `trySpawn` (pool.go lines 102-118):
integer division and remainder of the queue depth by the batch size
(floored to 1), a conditional increment for a partial batch, then the
standby-floor and ceiling comparisons exactly as written in the source.
Go's `/` and `%` on `int` truncate toward zero, hence `Int.tdiv` and
`Int.tmod`. -/
def trySpawnTarget (queueCount batchSize standBy maximum : Int) : Int :=
  let b := if batchSize < 1 then 1 else batchSize
  let e := queueCount.tdiv b
  let e := if 0 < queueCount.tmod b then e + 1 else e
  let e := if e < standBy then standBy else e
  if 0 < maximum ∧ maximum < e then maximum else e

/-- The Scaling Policy exactly as the specification words it:
`target = ceil(d / b)` with `b` floored to 1 when non-positive, then
`target = max(target, s)`, and finally `target = min(target, m)` when
`m > 0`.  For `0 ≤ d` and `1 ≤ b` the ceiling of `d / b` is
`(d + b - 1) / b` (floor division). -/
def scalingPolicySpec (d b s m : Int) : Int :=
  let b := if b < 1 then 1 else b
  let t := (d + b - 1) / b
  let t := max t s
  if 0 < m then min t m else t

/-- `generateWorker`'s effect on the pool record (pool.go lines 158-164):
the worker count is incremented once, before the worker goroutine starts.
The goroutine body itself is modelled by `runWorkerThread` below. -/
def DefaultWorkerPool.generateWorker (p : DefaultWorkerPool) : DefaultWorkerPool :=
  { p with workerCount := p.workerCount + 1 }

/-- The spawn loop `for i := from; i < target; i++ { generateWorker() }`
used by `trySpawn` (lines 121-123) and `PreAllocWorkerSize` (lines
129-131). -/
def spawnUpTo (p : DefaultWorkerPool) (i target : Int) : DefaultWorkerPool :=
  if i < target then spawnUpTo p.generateWorker (i + 1) target else p
termination_by (target - i).toNat
decreasing_by simp_wf; omega

/-- `trySpawn` (pool.go lines 101-125): compute the expected worker count
from the queue depth and the configuration, then launch workers up from the
current count when below it. -/
def DefaultWorkerPool.trySpawn (p : DefaultWorkerPool) : DefaultWorkerPool :=
  let expected := trySpawnTarget p.jobQueue.Count p.workerBatchSize
      p.workerSizeStandBy p.workerSizeMaximum
  if p.workerCount < expected then spawnUpTo p p.workerCount expected else p

/-- `PreAllocWorkerSize` (pool.go lines 128-132): eagerly launch workers
from the current count up to the requested size, consulting neither the
queue depth nor the Scaling Policy. -/
def DefaultWorkerPool.PreAllocWorkerSize (p : DefaultWorkerPool)
    (preAllocWorkerSize : Int) : DefaultWorkerPool :=
  spawnUpTo p p.workerCount preAllocWorkerSize

/-- `notifyWorkers` (pool.go lines 152-156): offer a signal to the spawn
mailbox, but only when the worker count is below the standby floor or the
queue is non-empty. -/
def DefaultWorkerPool.notifyWorkers (p : DefaultWorkerPool) : DefaultWorkerPool :=
  if p.workerCount < p.workerSizeStandBy ∨ 0 < p.jobQueue.Count then
    { p with spawnWorkerCh := p.spawnWorkerCh.Offer 1 }
  else p

/-- `SetJobQueue` (pool.go lines 208-211). -/
def DefaultWorkerPool.SetJobQueue (p : DefaultWorkerPool) (jobQueue : JobQueue) :
    DefaultWorkerPool :=
  { p with jobQueue := jobQueue }

/-- `SetIsJobQueueClosedWhenClose` (pool.go lines 214-217). -/
def DefaultWorkerPool.SetIsJobQueueClosedWhenClose (p : DefaultWorkerPool)
    (b : Bool) : DefaultWorkerPool :=
  { p with isJobQueueClosedWhenClose := b }

/-- `SetPanicHandler` (pool.go lines 220-223); the handler is modelled by
its presence. -/
def DefaultWorkerPool.SetPanicHandler (p : DefaultWorkerPool) (handlerSome : Bool) :
    DefaultWorkerPool :=
  { p with panicHandlerSome := handlerSome }

/-- `SetWorkerBatchSize` (pool.go lines 226-230): set the field, then
`notifyWorkers`. -/
def DefaultWorkerPool.SetWorkerBatchSize (p : DefaultWorkerPool) (v : Int) :
    DefaultWorkerPool :=
  ({ p with workerBatchSize := v } : DefaultWorkerPool).notifyWorkers

/-- `SetWorkerSizeStandBy` (pool.go lines 233-237): set the field, then
`notifyWorkers` (which reads the new standby value). -/
def DefaultWorkerPool.SetWorkerSizeStandBy (p : DefaultWorkerPool) (v : Int) :
    DefaultWorkerPool :=
  ({ p with workerSizeStandBy := v } : DefaultWorkerPool).notifyWorkers

/-- `SetWorkerSizeMaximum` (pool.go lines 240-244): set the field, then
`notifyWorkers`. -/
def DefaultWorkerPool.SetWorkerSizeMaximum (p : DefaultWorkerPool) (v : Int) :
    DefaultWorkerPool :=
  ({ p with workerSizeMaximum := v } : DefaultWorkerPool).notifyWorkers

/-- `SetSpawnWorkerDuration` (pool.go lines 247-250): sets the field only;
this setter does not call `notifyWorkers`. -/
def DefaultWorkerPool.SetSpawnWorkerDuration (p : DefaultWorkerPool) (v : Int) :
    DefaultWorkerPool :=
  { p with spawnWorkerDuration := v }

/-- `SetWorkerExpiryDuration` (pool.go lines 253-257): set the field, then
`notifyWorkers`. -/
def DefaultWorkerPool.SetWorkerExpiryDuration (p : DefaultWorkerPool) (v : Int) :
    DefaultWorkerPool :=
  ({ p with workerExpiryDuration := v } : DefaultWorkerPool).notifyWorkers

/-- `IsClosed` (pool.go lines 260-262). -/
def DefaultWorkerPool.IsClosed (p : DefaultWorkerPool) : Bool := p.isClosed

/-- `Close` (pool.go lines 265-274): return immediately when already
closed; otherwise set the closed flag and, when
`isJobQueueClosedWhenClose` holds, close the job queue. -/
def DefaultWorkerPool.Close (p : DefaultWorkerPool) : DefaultWorkerPool :=
  if p.IsClosed then p
  else
    let p := { p with isClosed := true }
    if p.isJobQueueClosedWhenClose then { p with jobQueue := p.jobQueue.Close }
    else p

/-- Result of `Schedule`/`ScheduleWithTimeout`, mirroring the error values
declared in pool.go lines 13-22.  `timeout` stands for
`ErrWorkerPoolScheduleTimeout`, which is declared but never returned. -/
inductive ScheduleResult where
  | ok
  | poolClosed
  | queueFull
  | queueClosed
  | timeout
deriving DecidableEq

/-- The job-queue offer error is returned unchanged by `Schedule`; this maps
the queue-side result onto the pool-side taxonomy. -/
def offerResultToScheduleResult : OfferResult → ScheduleResult
  | OfferResult.ok => ScheduleResult.ok
  | OfferResult.full => ScheduleResult.queueFull
  | OfferResult.closed => ScheduleResult.queueClosed

/-- `Schedule` (pool.go lines 277-284): fail with the pool-closed error when
the pool is closed (the queue and the mailbox are not touched); otherwise
offer the job to the queue, propagate the offer's error, and - via the
deferred call - offer a signal to the spawn mailbox. -/
def DefaultWorkerPool.Schedule (p : DefaultWorkerPool) (fn : Job) :
    ScheduleResult × DefaultWorkerPool :=
  if p.IsClosed then (ScheduleResult.poolClosed, p)
  else
    let r := p.jobQueue.Offer fn
    (offerResultToScheduleResult r.1,
      { p with jobQueue := r.2, spawnWorkerCh := p.spawnWorkerCh.Offer 1 })

/-- `ScheduleWithTimeout` (pool.go lines 287-294): the body is identical to
`Schedule`; the `timeout` parameter is never read. -/
def DefaultWorkerPool.ScheduleWithTimeout (p : DefaultWorkerPool) (fn : Job)
    (timeout : Int) : ScheduleResult × DefaultWorkerPool :=
  if p.IsClosed then (ScheduleResult.poolClosed, p)
  else
    let r := p.jobQueue.Offer fn
    (offerResultToScheduleResult r.1,
      { p with jobQueue := r.2, spawnWorkerCh := p.spawnWorkerCh.Offer 1 })

/-- One wake-up of a worker's `select` (pool.go lines 186-202): either a job
arrives from the queue's channel, or the idle-expiry timer fires first; in
the latter case the worker count it reads under the lock at that moment is
recorded in the event, since other workers may have changed it
concurrently. -/
inductive WorkerEvent where
  | jobArrives (j : Job)
  | timerFires (observedWorkerCount : Int)
deriving DecidableEq

/-- Outcome of the worker's `for` loop on a finite schedule of events. -/
inductive LoopOutcome where
  | active (jobsCompleted : Nat)
  | exited (jobsCompleted : Nat) (panicked : Bool) (unprocessed : List WorkerEvent)
deriving DecidableEq

/-- The worker run loop (pool.go lines 182-203).  A nil job is skipped; a
job that returns normally is counted and the loop continues; a job that
panics unwinds the loop - the `recover` sits in the goroutine-level `defer`,
not inside the loop - leaving the remaining events unprocessed.  A timer
expiry exits the loop exactly when the observed worker count exceeds the
standby floor or the maximum; otherwise the loop continues (the idle timer
restarts).  When the events are exhausted the worker is still active,
blocked in `select`. -/
def runLoop (standBy maximum : Int) : List WorkerEvent → LoopOutcome
  | [] => LoopOutcome.active 0
  | WorkerEvent.jobArrives Job.nilJob :: rest => runLoop standBy maximum rest
  | WorkerEvent.jobArrives Job.runs :: rest =>
      match runLoop standBy maximum rest with
      | LoopOutcome.active n => LoopOutcome.active (n + 1)
      | LoopOutcome.exited n w u => LoopOutcome.exited (n + 1) w u
  | WorkerEvent.jobArrives Job.panics :: rest => LoopOutcome.exited 0 true rest
  | WorkerEvent.timerFires c :: rest =>
      if standBy < c ∨ maximum < c then LoopOutcome.exited 0 false rest
      else runLoop standBy maximum rest

/-- Observable summary of one worker goroutine that has terminated. -/
structure ThreadStats where
  jobsCompleted : Nat
  panicked : Bool
  handlerCalls : Nat
  decrements : Nat
  unprocessed : List WorkerEvent
deriving DecidableEq

/-- The whole worker goroutine (pool.go lines 166-204): run the loop; when
the loop is left - by the `break` on idle expiry or by a propagating panic -
the deferred recovery block runs exactly once: it invokes the configured
panic handler when (and only when) a panic was recovered and a non-nil
handler is installed, and then decrements the worker count exactly once.
`none` means the goroutine is still running (blocked in `select`). -/
def runWorkerThread (handlerSome : Bool) (standBy maximum : Int)
    (events : List WorkerEvent) : Option ThreadStats :=
  match runLoop standBy maximum events with
  | LoopOutcome.active _ => none
  | LoopOutcome.exited n w u =>
      some { jobsCompleted := n, panicked := w
             handlerCalls := if w && handlerSome then 1 else 0
             decrements := 1, unprocessed := u }

/-- Number of normally-completing jobs in a list of worker events. -/
def completedJobs : List WorkerEvent → Nat
  | [] => 0
  | WorkerEvent.jobArrives Job.runs :: rest => completedJobs rest + 1
  | _ :: rest => completedJobs rest

/-- An event on which the worker loop keeps looping: a non-panicking job, or
a timer expiry whose observed count is within both the standby floor and the
maximum. -/
def nonExiting (standBy maximum : Int) : WorkerEvent → Bool
  | WorkerEvent.jobArrives Job.panics => false
  | WorkerEvent.jobArrives _ => true
  | WorkerEvent.timerFires c => decide (c ≤ standBy) && decide (c ≤ maximum)

/-- Aggregate view of the shared worker counter: the pool's `workerCount`
next to the number of worker goroutines that have been started and have not
yet terminated. -/
structure CountState where
  workerCount : Int
  liveWorkers : Nat
deriving DecidableEq

/-- The only two operations ever applied to the shared worker counter in
pool.go: `generateWorker` increments it (line 163) as it starts one
goroutine, and a terminating goroutine's deferred block decrements it
(line 176) exactly once; only a live goroutine can terminate. -/
inductive CountStep : CountState → CountState → Prop
  | spawn (s : CountState) :
      CountStep s { workerCount := s.workerCount + 1, liveWorkers := s.liveWorkers + 1 }
  | terminate (s : CountState) (h : 0 < s.liveWorkers) :
      CountStep s { workerCount := s.workerCount - 1, liveWorkers := s.liveWorkers - 1 }

/-- An empty, open job queue of the given capacity. -/
def emptyQueue (bufferSize : Nat) : JobQueue :=
  { jobs := [], bufferSize := bufferSize, closed := false }

/-! ## Helper lemmas -/

/-- The conditional increment after a truncated division, as written in
`trySpawn`, computes the ceiling of `d / b`, expressed as the floor of
`(d + b - 1) / b`, for a nonnegative dividend and a positive divisor. -/
theorem trySpawn_ceil_div (d b : Int) (hd : 0 ≤ d) (hb : 1 ≤ b) :
    (if 0 < d.tmod b then d.tdiv b + 1 else d.tdiv b) = (d + b - 1) / b := by
  rw [Int.tdiv_eq_ediv hd (by omega), Int.tmod_eq_emod hd (by omega)]
  have hb0 : b ≠ 0 := by omega
  have hmod : b * (d / b) + d % b = d := Int.ediv_add_emod d b
  have hr0 : 0 ≤ d % b := Int.emod_nonneg d hb0
  have hrb : d % b < b := Int.emod_lt_of_pos d (by omega)
  have key : (d + b - 1) / b = (d % b + b - 1) / b + d / b := by
    have e : d + b - 1 = (d % b + b - 1) + b * (d / b) := by omega
    rw [e, Int.add_mul_ediv_left _ _ hb0]
  by_cases h : 0 < d % b
  · have h2 : (d % b + b - 1) / b = 1 := by
      have e : d % b + b - 1 = (d % b - 1) + b * 1 := by omega
      rw [e, Int.add_mul_ediv_left _ _ hb0,
        Int.ediv_eq_zero_of_lt (by omega) (by omega)]
      omega
    rw [if_pos h, key, h2]
    omega
  · have h2 : (d % b + b - 1) / b = 0 := by
      have h0 : d % b = 0 := by omega
      rw [h0]
      exact Int.ediv_eq_zero_of_lt (by omega) (by omega)
    rw [if_neg h, key, h2]
    omega

/-- Unfolding of the `spawnUpTo` loop: it raises the worker count by the
number of iterations `(target - i).toNat` and changes nothing else. -/
theorem spawnUpTo_eq : ∀ (k : Nat) (p : DefaultWorkerPool) (i target : Int),
    (target - i).toNat = k →
    spawnUpTo p i target = { p with workerCount := p.workerCount + (k : Int) } := by
  intro k
  induction k with
  | zero =>
    intro p i target hk
    rw [spawnUpTo, if_neg (by omega)]
    simp
  | succ n ih =>
    intro p i target hk
    rw [spawnUpTo, if_pos (by omega)]
    rw [ih p.generateWorker (i + 1) target (by omega)]
    cases p
    simp only [DefaultWorkerPool.generateWorker]
    congr 1
    push_cast
    omega

/-- `spawnUpTo` in closed form. -/
theorem spawnUpTo_count (p : DefaultWorkerPool) (i target : Int) :
    spawnUpTo p i target =
      { p with workerCount := p.workerCount + ((target - i).toNat : Int) } :=
  spawnUpTo_eq (target - i).toNat p i target rfl

/-- The worker loop on a schedule that reaches a panicking job after a
prefix of non-exiting events: the panic propagates out of the loop at that
point, with the prefix's completed jobs counted and the remaining events
unprocessed. -/
theorem runLoop_panic (standBy maximum : Int) :
    ∀ pre rest : List WorkerEvent,
      (∀ e ∈ pre, nonExiting standBy maximum e = true) →
      runLoop standBy maximum (pre ++ WorkerEvent.jobArrives Job.panics :: rest)
        = LoopOutcome.exited (completedJobs pre) true rest := by
  intro pre
  induction pre with
  | nil =>
    intro rest _
    simp [runLoop, completedJobs]
  | cons e pre ih =>
    intro rest h
    have he : nonExiting standBy maximum e = true := h e (by simp)
    have hpre : ∀ x ∈ pre, nonExiting standBy maximum x = true := fun x hx =>
      h x (by simp [hx])
    cases e with
    | jobArrives j =>
      cases j with
      | nilJob =>
        simp only [List.cons_append, runLoop, completedJobs]
        exact ih rest hpre
      | runs =>
        simp only [List.cons_append, runLoop, completedJobs, List.append_eq]
        rw [ih rest hpre]
      | panics => simp [nonExiting] at he
    | timerFires c =>
      simp only [nonExiting, Bool.and_eq_true, decide_eq_true_eq] at he
      simp only [List.cons_append, runLoop, completedJobs, List.append_eq]
      rw [if_neg (by omega), ih rest hpre]

/-- A worker goroutine that has terminated ran its deferred decrement
exactly once. -/
theorem runWorkerThread_decrements (handlerSome : Bool) (standBy maximum : Int)
    (events : List WorkerEvent) (st : ThreadStats)
    (h : runWorkerThread handlerSome standBy maximum events = some st) :
    st.decrements = 1 := by
  unfold runWorkerThread at h
  cases hl : runLoop standBy maximum events with
  | active n => rw [hl] at h; simp at h
  | exited n w u => rw [hl] at h; cases h; rfl

/-! ## Claim theorems -/

/-- C1: for every queue depth `d >= 0`, batch size `b`, standby floor `s`
and ceiling `m`, the target computed by `trySpawn` equals the Scaling
Policy of the spec - `ceil(d / b)` with `b` floored to 1 when non-positive,
then raised to the standby floor, then capped at the ceiling when `m > 0` -
and in particular with `d = 23`, `b = 5`, `s = 2`, `m = 10` the target
is 5. -/
theorem trySpawn_target_spec (d b s m : Int) (hd : 0 ≤ d) :
    trySpawnTarget d b s m = scalingPolicySpec d b s m ∧
      trySpawnTarget 23 5 2 10 = 5 := by
  refine ⟨?_, by decide⟩
  simp only [trySpawnTarget, scalingPolicySpec]
  have hb : (1 : Int) ≤ if b < 1 then 1 else b := by split <;> omega
  rw [trySpawn_ceil_div d (if b < 1 then 1 else b) hd hb]
  generalize (d + (if b < 1 then 1 else b) - 1) / (if b < 1 then 1 else b) = t
  simp only [max_def, min_def]
  split_ifs <;> omega

/-- C1 witness: the theorem applied at the concrete scenario of the spec. -/
theorem trySpawn_target_spec_witness :
    trySpawnTarget 23 5 2 10 = scalingPolicySpec 23 5 2 10 ∧
      trySpawnTarget 23 5 2 10 = 5 :=
  trySpawn_target_spec 23 5 2 10 (by decide)

/-- C7: when the idle-expiry timer fires before a task arrives, the worker
retires - leaving its loop with the remaining events unprocessed and its
single deferred decrement, without invoking the panic handler - exactly
when the worker count it observes exceeds the standby floor or exceeds the
maximum; otherwise it keeps running its loop on the remaining events. -/
theorem idle_expiry_retirement (handlerSome : Bool) (standBy maximum c : Int)
    (rest : List WorkerEvent) :
    runWorkerThread handlerSome standBy maximum (WorkerEvent.timerFires c :: rest)
      = if standBy < c ∨ maximum < c then
          some { jobsCompleted := 0, panicked := false, handlerCalls := 0,
                 decrements := 1, unprocessed := rest }
        else runWorkerThread handlerSome standBy maximum rest := by
  by_cases h : standBy < c ∨ maximum < c
  · simp [runWorkerThread, runLoop, h]
  · simp [runWorkerThread, runLoop, h]

/-- C8: `PreAllocWorkerSize n` launches workers until the count reaches `n`
(never removing any), touching nothing else in the pool - in particular it
consults neither the queue depth nor the Scaling Policy - and on a freshly
constructed pool reconfigured to standby floor 2 it yields exactly 10
resident workers for `n = 10`. -/
theorem preAlloc_reaches_target :
    (∀ (p : DefaultWorkerPool) (n : Int),
      p.PreAllocWorkerSize n = { p with workerCount := max p.workerCount n }) ∧
    (((NewDefaultWorkerPool (emptyQueue 4)).SetWorkerSizeStandBy 2).PreAllocWorkerSize
        10).workerCount = 10 := by
  have hgen : ∀ (p : DefaultWorkerPool) (n : Int),
      p.PreAllocWorkerSize n = { p with workerCount := max p.workerCount n } := by
    intro p n
    rw [DefaultWorkerPool.PreAllocWorkerSize, spawnUpTo_count]
    congr 1
    omega
  refine ⟨hgen, ?_⟩
  rw [hgen]
  decide

/-- C10: a freshly constructed pool starts open, with the caller-supplied
job queue, worker count 0, an empty capacity-1 spawn-signal mailbox,
`jobQueueClosedOnClose` true, batch size 5, standby floor 5, maximum 1000,
spawn interval 100 ms, worker expiry 5000 ms and a non-nil default panic
handler. -/
theorem newDefaultWorkerPool_defaults (q : JobQueue) :
    (NewDefaultWorkerPool q).isClosed = false ∧
    (NewDefaultWorkerPool q).jobQueue = q ∧
    (NewDefaultWorkerPool q).workerCount = 0 ∧
    (NewDefaultWorkerPool q).spawnWorkerCh.capacity = 1 ∧
    (NewDefaultWorkerPool q).spawnWorkerCh.signals = [] ∧
    (NewDefaultWorkerPool q).isJobQueueClosedWhenClose = true ∧
    (NewDefaultWorkerPool q).workerBatchSize = 5 ∧
    (NewDefaultWorkerPool q).workerSizeStandBy = 5 ∧
    (NewDefaultWorkerPool q).workerSizeMaximum = 1000 ∧
    (NewDefaultWorkerPool q).spawnWorkerDuration = 100 ∧
    (NewDefaultWorkerPool q).workerExpiryDuration = 5000 ∧
    (NewDefaultWorkerPool q).panicHandlerSome = true :=
  ⟨rfl, rfl, rfl, rfl, rfl, rfl, rfl, rfl, rfl, rfl, rfl, rfl⟩

/-- C2 counterexample: the claim says a worker whose task panics continues
its run loop.  In the code the `recover` sits only in the goroutine-level
`defer` (pool.go lines 168-179), not inside the loop, so the panic unwinds
the loop: on the concrete schedule "panicking task, then a runnable task"
the worker terminates - handler invoked once, count decremented once - with
the second task left unprocessed, i.e. it does retire because the task
failed. -/
theorem worker_panic_terminates_cex :
    runWorkerThread true 5 1000
        [WorkerEvent.jobArrives Job.panics, WorkerEvent.jobArrives Job.runs]
      = some { jobsCompleted := 0, panicked := true, handlerCalls := 1,
               decrements := 1,
               unprocessed := [WorkerEvent.jobArrives Job.runs] } := by
  decide

/-- C2 amended: a task failure is caught at the worker boundary and the
configured panic handler is invoked exactly once for that task, but the
worker does not continue its run loop: the goroutine terminates -
decrementing the worker count exactly once - leaving any later events to
other workers. -/
theorem worker_panic_isolated_amended (handlerSome : Bool) (standBy maximum : Int)
    (pre rest : List WorkerEvent)
    (hpre : ∀ e ∈ pre, nonExiting standBy maximum e = true) :
    runWorkerThread handlerSome standBy maximum
        (pre ++ WorkerEvent.jobArrives Job.panics :: rest)
      = some { jobsCompleted := completedJobs pre, panicked := true,
               handlerCalls := if handlerSome then 1 else 0,
               decrements := 1, unprocessed := rest } := by
  unfold runWorkerThread
  rw [runLoop_panic standBy maximum pre rest hpre]
  simp

/-- C2 amended witness: one completed task, then a failing one; the worker
terminates with one handler call and one decrement. -/
theorem worker_panic_isolated_amended_witness :
    runWorkerThread true 5 1000
        [WorkerEvent.jobArrives Job.runs, WorkerEvent.jobArrives Job.panics,
         WorkerEvent.timerFires 0]
      = some { jobsCompleted := 1, panicked := true, handlerCalls := 1,
               decrements := 1, unprocessed := [WorkerEvent.timerFires 0] } :=
  worker_panic_isolated_amended true 5 1000 [WorkerEvent.jobArrives Job.runs]
    [WorkerEvent.timerFires 0] (by decide)

/-- C6: the worker count equals the number of live worker goroutines and is
therefore never negative in any state reachable by spawning and
terminating workers; a terminated worker ran its deferred decrement exactly
once whatever ended its loop; and `generateWorker` increments the count
exactly once at creation. -/
theorem worker_count_invariant (s : CountState)
    (hreach : Relation.ReflTransGen CountStep
      { workerCount := 0, liveWorkers := 0 } s)
    (handlerSome : Bool) (standBy maximum : Int) (events : List WorkerEvent)
    (st : ThreadStats)
    (hrun : runWorkerThread handlerSome standBy maximum events = some st)
    (p : DefaultWorkerPool) :
    0 ≤ s.workerCount ∧ s.workerCount = (s.liveWorkers : Int) ∧
      st.decrements = 1 ∧ p.generateWorker.workerCount = p.workerCount + 1 := by
  have hinv : s.workerCount = (s.liveWorkers : Int) := by
    induction hreach with
    | refl => rfl
    | tail hab hbc ih =>
      cases hbc with
      | spawn => simp only []; push_cast; omega
      | terminate ht => simp only []; omega
  exact ⟨by omega, hinv,
    runWorkerThread_decrements handlerSome standBy maximum events st hrun, rfl⟩

/-- C6 witness: the state after one spawn (count 1, one live worker), and a
worker that retired on idle expiry. -/
theorem worker_count_invariant_witness :
    0 ≤ (1 : Int) ∧ (1 : Int) = ((1 : Nat) : Int) ∧ (1 : Nat) = 1 ∧
      (NewDefaultWorkerPool (emptyQueue 1)).generateWorker.workerCount
        = (NewDefaultWorkerPool (emptyQueue 1)).workerCount + 1 :=
  worker_count_invariant { workerCount := 1, liveWorkers := 1 }
    (Relation.ReflTransGen.single
      (CountStep.spawn { workerCount := 0, liveWorkers := 0 }))
    true 0 0 [WorkerEvent.timerFires 1]
    { jobsCompleted := 0, panicked := false, handlerCalls := 0, decrements := 1,
      unprocessed := [] }
    (by decide) (NewDefaultWorkerPool (emptyQueue 1))

/-- C3 (code bug): `ScheduleWithTimeout` has the same contract as
`Schedule` only because it ignores its `timeout` parameter entirely: its
body is `Schedule`'s body verbatim, the queue-offer step is not bounded by
the timeout, and the declared timeout error
(`ErrWorkerPoolScheduleTimeout`) is never returned - on a full queue the
call returns the queue-full error immediately, identically for a 1 ms and a
10^9 ms timeout. -/
theorem scheduleWithTimeout_ignores_timeout (p : DefaultWorkerPool) (fn : Job)
    (timeout : Int) :
    p.ScheduleWithTimeout fn timeout = p.Schedule fn ∧
    (p.ScheduleWithTimeout fn timeout).1 ∈
      [ScheduleResult.ok, ScheduleResult.poolClosed, ScheduleResult.queueFull,
       ScheduleResult.queueClosed] ∧
    ((NewDefaultWorkerPool { jobs := [Job.runs], bufferSize := 1, closed := false
        }).ScheduleWithTimeout Job.runs 1).1 = ScheduleResult.queueFull ∧
    ((NewDefaultWorkerPool { jobs := [Job.runs], bufferSize := 1, closed := false
        }).ScheduleWithTimeout Job.runs 1000000000).1 = ScheduleResult.queueFull := by
  refine ⟨rfl, ?_, by decide, by decide⟩
  have hmap : ∀ r : OfferResult, offerResultToScheduleResult r ∈
      [ScheduleResult.ok, ScheduleResult.poolClosed, ScheduleResult.queueFull,
       ScheduleResult.queueClosed] := by
    intro r
    cases r <;> simp [offerResultToScheduleResult]
  unfold DefaultWorkerPool.ScheduleWithTimeout
  split
  · simp
  · simpa using hmap (p.jobQueue.Offer fn).1

/-- C4: `Schedule` on a closed pool fails with the pool-closed error and
touches neither the queue nor the mailbox; on an open pool it offers the
task to the queue, returns the offer's result mapped onto the pool's error
taxonomy (ok / queue-full / queue-closed), and offers one coalescing signal
to the spawn mailbox, which the constructor created with capacity 1. -/
theorem schedule_contract (p : DefaultWorkerPool) (fn : Job) (q : JobQueue) :
    (p.isClosed = true → p.Schedule fn = (ScheduleResult.poolClosed, p)) ∧
    (p.isClosed = false →
      (p.Schedule fn).1 = offerResultToScheduleResult (p.jobQueue.Offer fn).1 ∧
      (p.Schedule fn).2.jobQueue = (p.jobQueue.Offer fn).2 ∧
      (p.Schedule fn).2.spawnWorkerCh = p.spawnWorkerCh.Offer 1 ∧
      (p.Schedule fn).2.workerCount = p.workerCount ∧
      (p.Schedule fn).2.isClosed = false) ∧
    (NewDefaultWorkerPool q).spawnWorkerCh.capacity = 1 := by
  refine ⟨?_, ?_, rfl⟩
  · intro h
    simp [DefaultWorkerPool.Schedule, DefaultWorkerPool.IsClosed, h]
  · intro h
    simp [DefaultWorkerPool.Schedule, DefaultWorkerPool.IsClosed, h]

/-- C4 witness: a closed pool rejects with pool-closed untouched; an open
pool signals its mailbox. -/
theorem schedule_contract_witness :
    ({ NewDefaultWorkerPool (emptyQueue 2) with isClosed := true }
        : DefaultWorkerPool).Schedule Job.runs
      = (ScheduleResult.poolClosed,
         { NewDefaultWorkerPool (emptyQueue 2) with isClosed := true }) ∧
    ((NewDefaultWorkerPool (emptyQueue 2)).Schedule Job.runs).2.spawnWorkerCh
      = (NewDefaultWorkerPool (emptyQueue 2)).spawnWorkerCh.Offer 1 :=
  ⟨(schedule_contract
      { NewDefaultWorkerPool (emptyQueue 2) with isClosed := true } Job.runs
      (emptyQueue 2)).1 rfl,
   ((schedule_contract (NewDefaultWorkerPool (emptyQueue 2)) Job.runs
      (emptyQueue 2)).2.1 rfl).2.2.1⟩

/-- C5: `Close` is idempotent (closing a closed pool returns it unchanged,
with no error), the closed flag is set once and for all, every `Schedule`
after `Close` returns the pool-closed error, and the first `Close` closes
the job queue exactly when `isJobQueueClosedWhenClose` is set (a queue
already closed independently stays closed). -/
theorem close_idempotent_contract (p : DefaultWorkerPool) (fn : Job) :
    p.Close.Close = p.Close ∧
    p.Close.isClosed = true ∧
    (p.isClosed = true → p.Close = p) ∧
    (p.Close.Schedule fn).1 = ScheduleResult.poolClosed ∧
    p.Close.jobQueue.closed
      = (p.jobQueue.closed || (!p.isClosed && p.isJobQueueClosedWhenClose)) := by
  cases hc : p.isClosed <;> cases hf : p.isJobQueueClosedWhenClose <;>
    simp [DefaultWorkerPool.Close, DefaultWorkerPool.IsClosed,
      DefaultWorkerPool.Schedule, JobQueue.Close, hc, hf]

/-- C5 witness: closing an already-closed pool is a no-op and scheduling on
it reports pool-closed. -/
theorem close_idempotent_contract_witness :
    ({ NewDefaultWorkerPool (emptyQueue 2) with isClosed := true }
        : DefaultWorkerPool).Close
      = { NewDefaultWorkerPool (emptyQueue 2) with isClosed := true } ∧
    (({ NewDefaultWorkerPool (emptyQueue 2) with isClosed := true }
        : DefaultWorkerPool).Close.Schedule Job.runs).1
      = ScheduleResult.poolClosed :=
  ⟨(close_idempotent_contract
      { NewDefaultWorkerPool (emptyQueue 2) with isClosed := true }
      Job.runs).2.2.1 rfl,
   (close_idempotent_contract
      { NewDefaultWorkerPool (emptyQueue 2) with isClosed := true }
      Job.runs).2.2.2.1⟩

/-- C9 counterexample: the claim says every sizing setter immediately
issues a spawn-evaluation signal.  On a pool whose worker count (5) already
meets the standby floor (5) with an empty queue, `SetWorkerBatchSize` goes
through `notifyWorkers` without offering anything: the mailbox stays empty,
so no signal was issued. -/
theorem setter_no_signal_cex :
    (({ NewDefaultWorkerPool (emptyQueue 3) with workerCount := 5 }
        : DefaultWorkerPool).SetWorkerBatchSize 7).spawnWorkerCh.signals
      = ([] : List Int) := by
  decide

/-- C9 amended: every configuration setter returns the (updated) pool with
its field set; the four sizing setters (batch size, standby, maximum,
expiry) immediately invoke the spawn-notification routine, which offers a
signal to the spawn mailbox precisely when the worker count is below the
standby floor (as just updated, for the standby setter) or the queue is
non-empty; the spawn-interval setter and the remaining setters issue no
signal. -/
theorem setters_fluent_notify_amended (p : DefaultWorkerPool) (v : Int)
    (q2 : JobQueue) (b : Bool) :
    (p.SetWorkerBatchSize v).workerBatchSize = v ∧
    (p.SetWorkerBatchSize v).spawnWorkerCh
      = (if p.workerCount < p.workerSizeStandBy ∨ 0 < p.jobQueue.Count
         then p.spawnWorkerCh.Offer 1 else p.spawnWorkerCh) ∧
    (p.SetWorkerSizeStandBy v).workerSizeStandBy = v ∧
    (p.SetWorkerSizeStandBy v).spawnWorkerCh
      = (if p.workerCount < v ∨ 0 < p.jobQueue.Count
         then p.spawnWorkerCh.Offer 1 else p.spawnWorkerCh) ∧
    (p.SetWorkerSizeMaximum v).workerSizeMaximum = v ∧
    (p.SetWorkerSizeMaximum v).spawnWorkerCh
      = (if p.workerCount < p.workerSizeStandBy ∨ 0 < p.jobQueue.Count
         then p.spawnWorkerCh.Offer 1 else p.spawnWorkerCh) ∧
    (p.SetWorkerExpiryDuration v).workerExpiryDuration = v ∧
    (p.SetWorkerExpiryDuration v).spawnWorkerCh
      = (if p.workerCount < p.workerSizeStandBy ∨ 0 < p.jobQueue.Count
         then p.spawnWorkerCh.Offer 1 else p.spawnWorkerCh) ∧
    (p.SetSpawnWorkerDuration v).spawnWorkerDuration = v ∧
    (p.SetSpawnWorkerDuration v).spawnWorkerCh = p.spawnWorkerCh ∧
    (p.SetJobQueue q2).jobQueue = q2 ∧
    (p.SetJobQueue q2).spawnWorkerCh = p.spawnWorkerCh ∧
    (p.SetIsJobQueueClosedWhenClose b).isJobQueueClosedWhenClose = b ∧
    (p.SetIsJobQueueClosedWhenClose b).spawnWorkerCh = p.spawnWorkerCh ∧
    (p.SetPanicHandler b).panicHandlerSome = b ∧
    (p.SetPanicHandler b).spawnWorkerCh = p.spawnWorkerCh := by
  unfold DefaultWorkerPool.SetWorkerBatchSize DefaultWorkerPool.SetWorkerSizeStandBy
    DefaultWorkerPool.SetWorkerSizeMaximum DefaultWorkerPool.SetWorkerExpiryDuration
    DefaultWorkerPool.SetSpawnWorkerDuration DefaultWorkerPool.SetJobQueue
    DefaultWorkerPool.SetIsJobQueueClosedWhenClose DefaultWorkerPool.SetPanicHandler
    DefaultWorkerPool.notifyWorkers
  split_ifs <;> simp

end FpGoWorker
